import Mathlib

/-!
Verification of the pinecone-mcp tool layer (`src/pinecone_mcp_0/pinecone_mcp_0.py`).

The module exposes three tools (`embed`, `search_pinecone`, `insert_text`)
that bridge an external embedding provider and an external vector store.
We shallowly embed the module: the two remote services and the uuid
generator are modelled by an oracle (`World`), every external call is
recorded in an event trace, and a Python exception is modelled by the
`PyOutcome.raised` constructor, so that a `try/except` block becomes an
explicit match on `raised`.
-/

/-- Scalar metadata values (the JSON scalars Python metadata dicts hold). -/
inductive SValue where
  | str (s : String)
  | int (n : Int)
  | float (q : Rat)
  | bool (b : Bool)
deriving DecidableEq, Repr

/-- Embedding vectors: floats modelled as rationals (only passed through). -/
abbrev EmbeddingVector := List Rat

/-- A metadata record: a finite string-keyed mapping of scalars. -/
abbrev Metadata := List (String × SValue)

/-- The metadata filter argument of `search_pinecone` (passed through to the
store; per the spec a conjunction of key = value equality constraints). -/
abbrev MetaFilter := List (String × SValue)

/-- The pydantic model `FirstNamespaceSchema` of the source: four required
fields, `extra = "forbid"`. -/
structure FirstNamespaceSchema where
  author : String
  file_id : Int
  industry : String
  original_text : String
deriving DecidableEq, Repr

/-- The method `data.model_dump()`: the metadata dict built from the validated model. -/
def FirstNamespaceSchema.model_dump (d : FirstNamespaceSchema) : Metadata :=
  [("author", SValue.str d.author),
   ("file_id", SValue.int d.file_id),
   ("industry", SValue.str d.industry),
   ("original_text", SValue.str d.original_text)]

/-- The schema classes that can appear as values of `NAMESPACE_SCHEMAS`. -/
inductive SchemaTag where
  | firstNamespace
deriving DecidableEq, Repr

/-- The static registry `NAMESPACE_SCHEMAS` of the source: exactly one
entry, mapping "first_namespace" to `FirstNamespaceSchema`. -/
def NAMESPACE_SCHEMAS : List (String × SchemaTag) :=
  [("first_namespace", SchemaTag.firstNamespace)]

/-- The function `get_namespace_schema`: dictionary lookup; a `KeyError` is re-raised as
`ValueError("Unknown namespace: ...")`, modelled as `Except.error`. -/
def get_namespace_schema (ns : String) : Except String SchemaTag :=
  match NAMESPACE_SCHEMAS.lookup ns with
  | some s => Except.ok s
  | none => Except.error ("Unknown namespace: " ++ ns)

/-- The outcome of running a Python expression: either a value or an
uncaught exception carrying its message. -/
inductive PyOutcome (α : Type) where
  | raised (msg : String)
  | val (v : α)
deriving DecidableEq, Repr

/-- The outcome of one remote call: the value it returned or the exception
it raised. -/
inductive ExcOr (α : Type) where
  | exc (msg : String)
  | ok (v : α)
deriving DecidableEq, Repr

/-- One match dict as returned by the Pinecone query response: the keys
`id`, `score`, `metadata` are read with `.get`, so each may be absent. -/
structure StoreMatch where
  id : Option String
  score : Option Rat
  metadata : Option Metadata
deriving DecidableEq, Repr

/-- The Pinecone query response; `matches` is read as
`results.get('matches', [])`, so it may be absent. -/
structure QueryResponse where
  matchesList : Option (List StoreMatch)
deriving DecidableEq, Repr

/-- The external calls a tool run can perform, recorded in order. A
`schemaLookup` event would be recorded by any consultation of the
schema registry (`get_namespace_schema`). -/
inductive Event where
  | embedCall (text : String)
  | queryCall (ns : String) (top_k : Nat) (include_metadata : Bool)
      (vector : EmbeddingVector) (filter : MetaFilter)
  | upsertCall (ns : String) (id : String) (values : EmbeddingVector)
      (metadata : Metadata)
  | schemaLookup (ns : String)
deriving DecidableEq, Repr

/-- The oracle for everything outside the module: what the remote embedding
call returns (or raises) per input text, what the store query and upsert
return (or raise) per arguments, and the stream of ids `uuid.uuid4()`
produces (the n-th call yields `uuid4 n`). -/
structure World where
  embedResult : String → ExcOr EmbeddingVector
  queryResult : String → Nat → EmbeddingVector → MetaFilter → ExcOr QueryResponse
  upsertResult : String → String → EmbeddingVector → Metadata → ExcOr Unit
  uuid4 : Nat → String

/-- The `embed` tool. Its whole body is wrapped in `try/except Exception`:
a raised remote call is converted to `None`, a successful one returns the
vector. The result is the Python outcome together with the calls made. -/
def embed (w : World) (query_text : String) :
    PyOutcome (Option EmbeddingVector) × List Event :=
  match w.embedResult query_text with
  | ExcOr.ok v => (PyOutcome.val (some v), [Event.embedCall query_text])
  | ExcOr.exc _ => (PyOutcome.val none, [Event.embedCall query_text])

/-- One entry of the `key_data` list `search_pinecone` builds from a match:
`{'id': match.get('id'), 'score': match.get('score'),
'metadata': match.get('metadata', {})}`. -/
structure MatchData where
  id : Option String
  score : Option Rat
  metadata : Metadata
deriving DecidableEq, Repr

/-- The list `key_data`: the list comprehension over `results.get('matches', [])`. -/
def key_data (results : QueryResponse) : List MatchData :=
  (results.matchesList.getD []).map
    (fun m => ⟨m.id, m.score, m.metadata.getD []⟩)

/-- The value `search_pinecone` can return. The Python annotation is
`list[str] | None`; at runtime the function produces a list of match
dicts, a list of strings, or a bare string, and the annotation also
admits `None` (`null`). -/
inductive SearchReturn where
  | null
  | matchList (ms : List MatchData)
  | strList (ss : List String)
  | str (s : String)
deriving DecidableEq, Repr

/-- The body of `search_pinecone`'s `try` block: embed the query (a `None`
embedding short-circuits to the `"no query embedding"` list), then query
the store with `top_k=3` and `include_metadata=True`; an exception from
the query escapes the body as `raised`. -/
def search_pinecone_body (w : World) (query_text ns : String)
    (filter : MetaFilter) : PyOutcome SearchReturn × List Event :=
  match embed w query_text with
  | (PyOutcome.raised m, tr) => (PyOutcome.raised m, tr)
  | (PyOutcome.val none, tr) =>
      (PyOutcome.val (SearchReturn.strList ["no query embedding"]), tr)
  | (PyOutcome.val (some qv), tr) =>
      match w.queryResult ns 3 qv filter with
      | ExcOr.exc m =>
          (PyOutcome.raised m, tr ++ [Event.queryCall ns 3 true qv filter])
      | ExcOr.ok results =>
          (PyOutcome.val
            (match key_data results with
             | [] => SearchReturn.str "No matches found"
             | kd => SearchReturn.matchList kd),
           tr ++ [Event.queryCall ns 3 true qv filter])

/-- The `search_pinecone` tool: the body's `try` block with its
`except Exception` handler, which converts any exception into the
one-element list `["An error occurred during Pinecone search: ..."]`. -/
def search_pinecone (w : World) (query_text ns : String)
    (filter : MetaFilter) : PyOutcome SearchReturn × List Event :=
  match search_pinecone_body w query_text ns filter with
  | (PyOutcome.raised m, tr) =>
      (PyOutcome.val
        (SearchReturn.strList ["An error occurred during Pinecone search: " ++ m]),
       tr)
  | (PyOutcome.val v, tr) => (PyOutcome.val v, tr)

/-- The body of `insert_text`'s `try` block: embed `data.original_text`
(a `None` embedding returns `False` before any store call), generate a
fresh uuid (advancing the uuid counter), and upsert; an exception from the
upsert escapes the body as `raised`. Returns the outcome, the new uuid
counter, and the calls made. -/
def insert_text_body (w : World) (ctr : Nat) (ns : String)
    (data : FirstNamespaceSchema) : PyOutcome Bool × Nat × List Event :=
  match embed w data.original_text with
  | (PyOutcome.raised m, tr) => (PyOutcome.raised m, ctr, tr)
  | (PyOutcome.val none, tr) => (PyOutcome.val false, ctr, tr)
  | (PyOutcome.val (some v), tr) =>
      match w.upsertResult ns (w.uuid4 ctr) v data.model_dump with
      | ExcOr.ok _ =>
          (PyOutcome.val true, ctr + 1,
           tr ++ [Event.upsertCall ns (w.uuid4 ctr) v data.model_dump])
      | ExcOr.exc m =>
          (PyOutcome.raised m, ctr + 1,
           tr ++ [Event.upsertCall ns (w.uuid4 ctr) v data.model_dump])

/-- The `insert_text` tool: the body's `try` block with its
`except Exception` handler, which converts any exception into `False`. -/
def insert_text (w : World) (ctr : Nat) (ns : String)
    (data : FirstNamespaceSchema) : PyOutcome Bool × Nat × List Event :=
  match insert_text_body w ctr ns data with
  | (PyOutcome.raised _, c, tr) => (PyOutcome.val false, c, tr)
  | (PyOutcome.val b, c, tr) => (PyOutcome.val b, c, tr)

/-- The field names `FirstNamespaceSchema` declares. -/
def requiredFields : List String :=
  ["author", "file_id", "industry", "original_text"]

/-- Whether a value has the scalar type `FirstNamespaceSchema` declares for
a field: `file_id` is an `int`, the other three fields are `str`. -/
def fieldTypeOk : String → SValue → Bool
  | "author", SValue.str _ => true
  | "file_id", SValue.int _ => true
  | "industry", SValue.str _ => true
  | "original_text", SValue.str _ => true
  | _, _ => false

/-- Pydantic validation of the `data` argument against
`FirstNamespaceSchema` (performed by the tool layer before the body of
`insert_text` runs): every declared field must be present with its
declared scalar type, and `extra = "forbid"` rejects any other key. -/
def validateFirstNamespace (raw : Metadata) : Option FirstNamespaceSchema :=
  if raw.all (fun p => requiredFields.contains p.1) then
    match raw.lookup "author", raw.lookup "file_id",
          raw.lookup "industry", raw.lookup "original_text" with
    | some (SValue.str a), some (SValue.int fid),
      some (SValue.str ind), some (SValue.str ot) =>
        some ⟨a, fid, ind, ot⟩
    | _, _, _, _ => none
  else none

/-- What a caller of the `insert_text` tool observes. -/
inductive InsertToolResult where
  | validationError
  | returned (b : Bool)
  | raised (msg : String)
deriving DecidableEq, Repr

/-- The full `insert_text` tool invocation: the tool layer first parses the
raw metadata into `FirstNamespaceSchema`; a validation failure is reported
before the function body runs, so no call is made. -/
def insert_text_tool (w : World) (ctr : Nat) (ns : String)
    (raw : Metadata) : InsertToolResult × Nat × List Event :=
  match validateFirstNamespace raw with
  | none => (InsertToolResult.validationError, ctr, [])
  | some data =>
      match insert_text w ctr ns data with
      | (PyOutcome.val b, c, tr) => (InsertToolResult.returned b, c, tr)
      | (PyOutcome.raised m, c, tr) => (InsertToolResult.raised m, c, tr)

/-- Whether an event is a consultation of the schema registry. -/
def isSchemaLookup : Event → Bool
  | Event.schemaLookup _ => true
  | _ => false

/-- Modelled from the spec (section 4.3): whether a stored record's
metadata satisfies a query filter — a conjunction of key = value equality
constraints; the empty filter means no restriction. -/
def satisfiesFilter (md : Metadata) (f : MetaFilter) : Bool :=
  f.all (fun kv => decide (md.lookup kv.1 = some kv.2))

/-- A record stored in the external vector index. -/
structure StoredRecord where
  id : String
  values : EmbeddingVector
  metadata : Metadata
deriving DecidableEq, Repr

/-- The matching records of a store, ranked by descending score. -/
def rankedHits (recs : List StoredRecord) (score : StoredRecord → Rat)
    (f : MetaFilter) : List StoredRecord :=
  (recs.filter (fun r => satisfiesFilter r.metadata f)).insertionSort
    (fun a b => score b ≤ score a)

/-- Modelled from the spec (section 4.3): the external store's query
contract — the records of the namespace whose metadata satisfies the
filter, ordered by descending similarity score, truncated to `top_k`; an
empty result is a response, not an error. `score` abstracts the store's
similarity metric. -/
def storeQuery (recs : List StoredRecord) (score : StoredRecord → Rat)
    (top_k : Nat) (f : MetaFilter) : QueryResponse :=
  ⟨some (((rankedHits recs score f).take top_k).map
    (fun r => ⟨some r.id, some (score r), some r.metadata⟩))⟩

/-- The `MatchData` entry `search_pinecone` builds for a stored record
served by `storeQuery`. -/
def toMatchData (score : StoredRecord → Rat) (r : StoredRecord) : MatchData :=
  ⟨some r.id, some (score r), r.metadata⟩

/-- A collision-free id stream standing in for `uuid.uuid4()`. -/
def uuidStream (n : Nat) : String :=
  String.mk (List.replicate n 'a')

/-- A world in which every remote call succeeds: the embedding provider
returns the vector `[1]` and the store reports no matches and accepts
every upsert. -/
def okWorld : World where
  embedResult := fun _ => ExcOr.ok [1]
  queryResult := fun _ _ _ _ => ExcOr.ok ⟨some []⟩
  upsertResult := fun _ _ _ _ => ExcOr.ok ()
  uuid4 := uuidStream

/-- A world in which the remote embedding call always raises. -/
def failWorld : World where
  embedResult := fun _ => ExcOr.exc "boom"
  queryResult := fun _ _ _ _ => ExcOr.ok ⟨some []⟩
  upsertResult := fun _ _ _ _ => ExcOr.ok ()
  uuid4 := uuidStream

/-- A schema-valid metadata record (the end-to-end scenario of the spec). -/
def rawGood : Metadata :=
  [("author", SValue.str "A"),
   ("file_id", SValue.int 1),
   ("industry", SValue.str "tech"),
   ("original_text", SValue.str "hello")]

/-- The parsed form of `rawGood`. -/
def d0 : FirstNamespaceSchema := ⟨"A", 1, "tech", "hello"⟩

/-- A metadata record missing the required field `file_id`. -/
def rawMissing : Metadata :=
  [("author", SValue.str "A"),
   ("industry", SValue.str "tech"),
   ("original_text", SValue.str "hello")]

/-- A one-record store whose single record matches the empty filter. -/
def recs1 : List StoredRecord :=
  [⟨"r1", [1], rawGood⟩]

/-- A constant score function for concrete stores. -/
def score1 : StoredRecord → Rat := fun _ => 1

/-- A world whose store serves queries from the one-record store `recs1`
under the `storeQuery` contract. -/
def storeWorld : World where
  embedResult := fun _ => ExcOr.ok [1]
  queryResult := fun _ k _ f => ExcOr.ok (storeQuery recs1 score1 k f)
  upsertResult := fun _ _ _ _ => ExcOr.ok ()
  uuid4 := uuidStream

/-- A world whose store serves queries from the empty store. -/
def emptyStoreWorld : World where
  embedResult := fun _ => ExcOr.ok [1]
  queryResult := fun _ k _ f => ExcOr.ok (storeQuery [] score1 k f)
  upsertResult := fun _ _ _ _ => ExcOr.ok ()
  uuid4 := uuidStream

theorem uuidStream_injective : Function.Injective uuidStream := by
  intro a b h
  have h2 : List.replicate a 'a' = List.replicate b 'a' :=
    congrArg String.data h
  simpa using congrArg List.length h2

theorem embed_eq_ok {w : World} {t : String} {v : EmbeddingVector}
    (h : w.embedResult t = ExcOr.ok v) :
    embed w t = (PyOutcome.val (some v), [Event.embedCall t]) := by
  unfold embed
  rw [h]

theorem embed_eq_exc {w : World} {t : String} {m : String}
    (h : w.embedResult t = ExcOr.exc m) :
    embed w t = (PyOutcome.val none, [Event.embedCall t]) := by
  unfold embed
  rw [h]

theorem search_embed_failed {w : World} {q ns : String} {f : MetaFilter} {m : String}
    (h : w.embedResult q = ExcOr.exc m) :
    search_pinecone w q ns f =
      (PyOutcome.val (SearchReturn.strList ["no query embedding"]),
       [Event.embedCall q]) := by
  unfold search_pinecone search_pinecone_body
  rw [embed_eq_exc h]

theorem search_query_exc {w : World} {q ns : String} {f : MetaFilter}
    {v : EmbeddingVector} {m : String}
    (hemb : w.embedResult q = ExcOr.ok v)
    (hq : w.queryResult ns 3 v f = ExcOr.exc m) :
    search_pinecone w q ns f =
      (PyOutcome.val
        (SearchReturn.strList ["An error occurred during Pinecone search: " ++ m]),
       [Event.embedCall q, Event.queryCall ns 3 true v f]) := by
  unfold search_pinecone search_pinecone_body
  rw [embed_eq_ok hemb]
  simp only []
  rw [hq]
  rfl

theorem search_query_ok {w : World} {q ns : String} {f : MetaFilter}
    {v : EmbeddingVector} {res : QueryResponse}
    (hemb : w.embedResult q = ExcOr.ok v)
    (hq : w.queryResult ns 3 v f = ExcOr.ok res) :
    search_pinecone w q ns f =
      (PyOutcome.val
        (match key_data res with
         | [] => SearchReturn.str "No matches found"
         | kd => SearchReturn.matchList kd),
       [Event.embedCall q, Event.queryCall ns 3 true v f]) := by
  unfold search_pinecone search_pinecone_body
  rw [embed_eq_ok hemb]
  simp only []
  rw [hq]
  simp only []
  cases key_data res <;> rfl

theorem insert_text_embed_failed {w : World} {ctr : Nat} {ns : String}
    {d : FirstNamespaceSchema} {m : String}
    (h : w.embedResult d.original_text = ExcOr.exc m) :
    insert_text w ctr ns d =
      (PyOutcome.val false, ctr, [Event.embedCall d.original_text]) := by
  unfold insert_text insert_text_body
  rw [embed_eq_exc h]

theorem insert_text_upsert_ok {w : World} {ctr : Nat} {ns : String}
    {d : FirstNamespaceSchema} {v : EmbeddingVector}
    (hemb : w.embedResult d.original_text = ExcOr.ok v)
    (hups : w.upsertResult ns (w.uuid4 ctr) v d.model_dump = ExcOr.ok ()) :
    insert_text w ctr ns d =
      (PyOutcome.val true, ctr + 1,
       [Event.embedCall d.original_text,
        Event.upsertCall ns (w.uuid4 ctr) v d.model_dump]) := by
  unfold insert_text insert_text_body
  rw [embed_eq_ok hemb]
  simp only []
  rw [hups]
  rfl

theorem insert_text_upsert_exc {w : World} {ctr : Nat} {ns : String}
    {d : FirstNamespaceSchema} {v : EmbeddingVector} {m : String}
    (hemb : w.embedResult d.original_text = ExcOr.ok v)
    (hups : w.upsertResult ns (w.uuid4 ctr) v d.model_dump = ExcOr.exc m) :
    insert_text w ctr ns d =
      (PyOutcome.val false, ctr + 1,
       [Event.embedCall d.original_text,
        Event.upsertCall ns (w.uuid4 ctr) v d.model_dump]) := by
  unfold insert_text insert_text_body
  rw [embed_eq_ok hemb]
  simp only []
  rw [hups]
  rfl

theorem validateFirstNamespace_some {raw : Metadata} {d : FirstNamespaceSchema}
    (h : validateFirstNamespace raw = some d) :
    raw.all (fun p => requiredFields.contains p.1) = true ∧
    raw.lookup "author" = some (SValue.str d.author) ∧
    raw.lookup "file_id" = some (SValue.int d.file_id) ∧
    raw.lookup "industry" = some (SValue.str d.industry) ∧
    raw.lookup "original_text" = some (SValue.str d.original_text) := by
  unfold validateFirstNamespace at h
  split at h
  case isTrue hall =>
    split at h
    case _ a fid ind ot ha hf hi ho =>
      cases h
      exact ⟨hall, ha, hf, hi, ho⟩
    case _ => exact absurd h (by simp)
  case isFalse hall => exact absurd h (by simp)

/-- Claim C2: for every input to each of the three exposed tools and for every
outcome of the remote embedding and store calls (including any exception
they raise), no exception propagates to the caller: every run produces a
value (`PyOutcome.val`), with a raised embedding call converted to `none`
by `embed`. -/
theorem C2_tools_never_raise (w : World) (t q ns : String) (f : MetaFilter)
    (ctr : Nat) (d : FirstNamespaceSchema) :
    ((embed w t).1 =
      PyOutcome.val (match w.embedResult t with
        | ExcOr.ok v => some v
        | ExcOr.exc _ => none)) ∧
    (∃ r, (search_pinecone w q ns f).1 = PyOutcome.val r) ∧
    (∃ b, (insert_text w ctr ns d).1 = PyOutcome.val b) := by
  refine ⟨?_, ?_, ?_⟩
  · cases h : w.embedResult t
    · rw [embed_eq_exc h]
    · rw [embed_eq_ok h]
  · cases he : w.embedResult q with
    | exc m => rw [search_embed_failed he]; exact ⟨_, rfl⟩
    | ok v =>
      cases hq : w.queryResult ns 3 v f with
      | exc m => rw [search_query_exc he hq]; exact ⟨_, rfl⟩
      | ok res =>
        rw [search_query_ok he hq]
        cases hkd : key_data res
        · exact ⟨_, rfl⟩
        · exact ⟨_, rfl⟩
  · cases he : w.embedResult d.original_text with
    | exc m => rw [insert_text_embed_failed he]; exact ⟨_, rfl⟩
    | ok v =>
      cases hu : w.upsertResult ns (w.uuid4 ctr) v d.model_dump with
      | exc m => rw [insert_text_upsert_exc he hu]; exact ⟨_, rfl⟩
      | ok u => cases u; rw [insert_text_upsert_ok he hu]; exact ⟨_, rfl⟩

/-- Claim C4: whenever the embedding step of `insert_text` fails (the embedding
result is `none`), the tool returns `false`, leaves the uuid counter
untouched, and its trace holds only the embedding call — no store upsert
is attempted. -/
theorem C4_embed_failure_no_upsert (w : World) (ctr : Nat) (ns : String)
    (d : FirstNamespaceSchema)
    (h : (embed w d.original_text).1 = PyOutcome.val none) :
    insert_text w ctr ns d =
      (PyOutcome.val false, ctr, [Event.embedCall d.original_text]) := by
  cases he : w.embedResult d.original_text with
  | exc m => exact insert_text_embed_failed he
  | ok v => rw [embed_eq_ok he] at h; exact absurd h (by simp)

/-- Witness for C4: in the world whose embedding provider always raises,
`insert_text` returns `false` having made only the embedding call. -/
theorem C4_embed_failure_no_upsert_witness :
    insert_text failWorld 0 "first_namespace" d0 =
      (PyOutcome.val false, 0, [Event.embedCall "hello"]) :=
  C4_embed_failure_no_upsert failWorld 0 "first_namespace" d0 rfl

/-- Claim C6: whenever the embedding step of `search_pinecone` fails, the tool
returns the one-element diagnostic list `["no query embedding"]` — a list,
not an exception — and its trace holds only the embedding call, so the
store query is never issued. -/
theorem C6_embed_failure_diag_list (w : World) (q ns : String) (f : MetaFilter)
    (h : (embed w q).1 = PyOutcome.val none) :
    search_pinecone w q ns f =
      (PyOutcome.val (SearchReturn.strList ["no query embedding"]),
       [Event.embedCall q]) := by
  cases he : w.embedResult q with
  | exc m => exact search_embed_failed he
  | ok v => rw [embed_eq_ok he] at h; exact absurd h (by simp)

/-- Witness for C6: in the world whose embedding provider always raises,
`search_pinecone` returns the diagnostic list without querying the store. -/
theorem C6_embed_failure_diag_list_witness :
    search_pinecone failWorld "hello" "first_namespace" [] =
      (PyOutcome.val (SearchReturn.strList ["no query embedding"]),
       [Event.embedCall "hello"]) :=
  C6_embed_failure_diag_list failWorld "hello" "first_namespace" [] rfl

/-- Claim C10: `search_pinecone` never returns `null` despite its declared
return type admitting it: for every world and input, the run produces a
value that is the no-matches sentinel string, a list of match objects, or
a one-element list holding a diagnostic string. -/
theorem C10_search_never_null (w : World) (q ns : String) (f : MetaFilter) :
    ∃ r, (search_pinecone w q ns f).1 = PyOutcome.val r ∧
      r ≠ SearchReturn.null ∧
      (r = SearchReturn.str "No matches found" ∨
       (∃ ms, r = SearchReturn.matchList ms) ∨
       (∃ s, r = SearchReturn.strList [s])) := by
  cases he : w.embedResult q with
  | exc m =>
    rw [search_embed_failed he]
    exact ⟨_, rfl, by simp, Or.inr (Or.inr ⟨_, rfl⟩)⟩
  | ok v =>
    cases hq : w.queryResult ns 3 v f with
    | exc m =>
      rw [search_query_exc he hq]
      exact ⟨_, rfl, by simp, Or.inr (Or.inr ⟨_, rfl⟩)⟩
    | ok res =>
      rw [search_query_ok he hq]
      cases hkd : key_data res with
      | nil => exact ⟨_, rfl, by simp, Or.inl rfl⟩
      | cons a l => exact ⟨_, rfl, by simp, Or.inr (Or.inl ⟨a :: l, rfl⟩)⟩

/-- Claim C5 as stated is false: at a concrete search whose result set is empty,
the value returned is the string "No matches found", which is not the
string "no matches" (the claim's sentinel). -/
theorem C5_counterexample :
    (search_pinecone okWorld "hello" "first_namespace" []).1 =
      PyOutcome.val (SearchReturn.str "No matches found") ∧
    SearchReturn.str "No matches found" ≠ SearchReturn.str "no matches" := by
  exact ⟨rfl, by decide⟩

/-- Claim C5 amended: for every search call whose result set is empty, the tool
returns the sentinel string "No matches found" — a bare string, not an
empty list and not an exception. -/
theorem C5_amended_empty_result_sentinel (w : World) (q ns : String)
    (f : MetaFilter) (v : EmbeddingVector) (res : QueryResponse)
    (hemb : w.embedResult q = ExcOr.ok v)
    (hq : w.queryResult ns 3 v f = ExcOr.ok res)
    (hempty : res.matchesList.getD [] = []) :
    search_pinecone w q ns f =
      (PyOutcome.val (SearchReturn.str "No matches found"),
       [Event.embedCall q, Event.queryCall ns 3 true v f]) := by
  rw [search_query_ok hemb hq]
  have hkd : key_data res = [] := by simp [key_data, hempty]
  rw [hkd]

/-- Witness for the amended C5 at a concrete empty-result search. -/
theorem C5_amended_empty_result_sentinel_witness :
    search_pinecone okWorld "hello" "first_namespace" [] =
      (PyOutcome.val (SearchReturn.str "No matches found"),
       [Event.embedCall "hello", Event.queryCall "first_namespace" 3 true [1] []]) :=
  C5_amended_empty_result_sentinel okWorld "hello" "first_namespace" [] [1]
    ⟨some []⟩ rfl rfl rfl

/-- Claim C1 as stated is false: at a concrete invocation with the namespace
"second_namespace" — which has no entry in the schema registry — the
validated insert does not fail with an unknown-namespace error: it
returns `true`, and its trace shows that it performed both the embedding
call and the store upsert call. -/
theorem C1_counterexample :
    ("second_namespace" ≠ "first_namespace") ∧
    insert_text_tool okWorld 0 "second_namespace" rawGood =
      (InsertToolResult.returned true, 1,
       [Event.embedCall "hello",
        Event.upsertCall "second_namespace" (uuidStream 0) [1] rawGood]) :=
  ⟨by decide, rfl⟩

/-- Claim C1 amended: for every namespace with no entry in the schema registry,
a direct registry lookup (`get_namespace_schema`) does fail with an
unknown-namespace error; but `insert_text` never consults the registry,
so for any such namespace a schema-valid record with a successful
embedding and upsert is inserted exactly as under "first_namespace": the
tool returns `true` and performs both the embedding call and the store
upsert call. -/
theorem C1_amended_registry_unused (w : World) (ctr : Nat) (ns : String)
    (raw : Metadata) (d : FirstNamespaceSchema) (v : EmbeddingVector)
    (hns : ns ≠ "first_namespace")
    (hval : validateFirstNamespace raw = some d)
    (hemb : w.embedResult d.original_text = ExcOr.ok v)
    (hups : w.upsertResult ns (w.uuid4 ctr) v d.model_dump = ExcOr.ok ()) :
    get_namespace_schema ns = Except.error ("Unknown namespace: " ++ ns) ∧
    insert_text_tool w ctr ns raw =
      (InsertToolResult.returned true, ctr + 1,
       [Event.embedCall d.original_text,
        Event.upsertCall ns (w.uuid4 ctr) v d.model_dump]) := by
  constructor
  · have hb : (ns == "first_namespace") = false := beq_eq_false_iff_ne.mpr hns
    simp [get_namespace_schema, NAMESPACE_SCHEMAS, List.lookup, hb]
  · unfold insert_text_tool
    rw [hval]
    simp only []
    rw [insert_text_upsert_ok hemb hups]

/-- Witness for the amended C1 at the namespace "second_namespace". -/
theorem C1_amended_registry_unused_witness :
    get_namespace_schema "second_namespace" =
      Except.error ("Unknown namespace: " ++ "second_namespace") ∧
    insert_text_tool okWorld 0 "second_namespace" rawGood =
      (InsertToolResult.returned true, 1,
       [Event.embedCall d0.original_text,
        Event.upsertCall "second_namespace" (okWorld.uuid4 0) [1] d0.model_dump]) :=
  C1_amended_registry_unused okWorld 0 "second_namespace" rawGood d0 [1]
    (by decide) rfl rfl rfl

/-- Claim C3: for every metadata record with a missing required field, an extra
field outside the schema, or a field of the wrong scalar type, validation
of the `insert_text` input fails: the tool reports a validation error, and
its (empty) trace shows that no embedding call and no store call occurs. -/
theorem C3_invalid_metadata_rejected (w : World) (ctr : Nat) (ns : String)
    (raw : Metadata)
    (h : (∃ k, k ∈ requiredFields ∧ raw.lookup k = none) ∨
         (∃ p, p ∈ raw ∧ requiredFields.contains p.1 = false) ∨
         (∃ k v, k ∈ requiredFields ∧ raw.lookup k = some v ∧
            fieldTypeOk k v = false)) :
    insert_text_tool w ctr ns raw =
      (InsertToolResult.validationError, ctr, []) := by
  have hv : validateFirstNamespace raw = none := by
    cases hval : validateFirstNamespace raw with
    | none => rfl
    | some d =>
      obtain ⟨hall, hA, hF, hI, hO⟩ := validateFirstNamespace_some hval
      exfalso
      rcases h with ⟨k, hk, hnone⟩ | ⟨p, hp, hcon⟩ | ⟨k, v, hk, hsome, hty⟩
      · simp only [requiredFields, List.mem_cons, List.not_mem_nil,
          or_false] at hk
        rcases hk with rfl | rfl | rfl | rfl <;> simp_all
      · have := List.all_eq_true.mp hall p hp
        simp_all
      · simp only [requiredFields, List.mem_cons, List.not_mem_nil,
          or_false] at hk
        rcases hk with rfl | rfl | rfl | rfl <;>
          simp_all [fieldTypeOk]
  unfold insert_text_tool
  rw [hv]

/-- Witness for C3 at a record missing the required field `file_id`. -/
theorem C3_invalid_metadata_rejected_witness :
    insert_text_tool okWorld 0 "first_namespace" rawMissing =
      (InsertToolResult.validationError, 0, []) :=
  C3_invalid_metadata_rejected okWorld 0 "first_namespace" rawMissing
    (Or.inl ⟨"file_id", by decide, by decide⟩)

theorem key_data_storeQuery (recs : List StoredRecord)
    (score : StoredRecord → Rat) (k : Nat) (f : MetaFilter) :
    key_data (storeQuery recs score k f) =
      ((rankedHits recs score f).take k).map (toMatchData score) := by
  simp only [key_data, storeQuery, Option.getD_some, List.map_map]
  rfl

theorem insert_text_after_embed_ok {w : World} {ctr : Nat} {ns : String}
    {d : FirstNamespaceSchema} {v : EmbeddingVector}
    (hemb : w.embedResult d.original_text = ExcOr.ok v) :
    (insert_text w ctr ns d).2 =
      (ctr + 1,
       [Event.embedCall d.original_text,
        Event.upsertCall ns (w.uuid4 ctr) v d.model_dump]) := by
  cases hu : w.upsertResult ns (w.uuid4 ctr) v d.model_dump with
  | exc m => rw [insert_text_upsert_exc hemb hu]
  | ok u => cases u; rw [insert_text_upsert_ok hemb hu]

/-- Claim C7 as stated is false at a store holding zero matching records: the
claim says a namespace with fewer than 3 matching records yields exactly
all of them, but with zero matching records the tool returns the string
"No matches found" rather than the (empty) list of all matching records. -/
theorem C7_counterexample :
    (search_pinecone emptyStoreWorld "hello" "first_namespace" []).1 =
      PyOutcome.val (SearchReturn.str "No matches found") ∧
    PyOutcome.val (SearchReturn.str "No matches found") ≠
      (PyOutcome.val (SearchReturn.matchList []) : PyOutcome SearchReturn) :=
  ⟨rfl, by decide⟩

/-- Claim C7 amended: every successful search queries the store with `top_k`
fixed at 3 and returns at most 3 matches; when the namespace holds one or
two matching records the returned list is exactly all of them (a
permutation of the matching records, never padded and never an error);
when it holds zero, the tool returns the sentinel string
"No matches found" instead of an empty list. -/
theorem C7_amended_topk3 (w : World) (q ns : String) (f : MetaFilter)
    (v : EmbeddingVector) (recs : List StoredRecord)
    (score : StoredRecord → Rat)
    (hemb : w.embedResult q = ExcOr.ok v)
    (hq : w.queryResult ns 3 v f = ExcOr.ok (storeQuery recs score 3 f))
    (hfew : (recs.filter (fun r => satisfiesFilter r.metadata f)).length < 3) :
    (search_pinecone w q ns f).2 =
      [Event.embedCall q, Event.queryCall ns 3 true v f] ∧
    (key_data (storeQuery recs score 3 f)).length ≤ 3 ∧
    (if recs.filter (fun r => satisfiesFilter r.metadata f) = []
     then (search_pinecone w q ns f).1 =
        PyOutcome.val (SearchReturn.str "No matches found")
     else (search_pinecone w q ns f).1 =
        PyOutcome.val (SearchReturn.matchList
          ((rankedHits recs score f).map (toMatchData score))) ∧
      ((rankedHits recs score f).map (toMatchData score)).length =
        (recs.filter (fun r => satisfiesFilter r.metadata f)).length ∧
      ((rankedHits recs score f).map (toMatchData score)).Perm
        ((recs.filter (fun r => satisfiesFilter r.metadata f)).map
          (toMatchData score))) := by
  have hlen : (rankedHits recs score f).length =
      (recs.filter (fun r => satisfiesFilter r.metadata f)).length := by
    unfold rankedHits
    exact List.length_insertionSort _ _
  have htake : (rankedHits recs score f).take 3 = rankedHits recs score f :=
    List.take_of_length_le (by omega)
  have hkd : key_data (storeQuery recs score 3 f) =
      (rankedHits recs score f).map (toMatchData score) := by
    rw [key_data_storeQuery, htake]
  have hperm : ((rankedHits recs score f).map (toMatchData score)).Perm
      ((recs.filter (fun r => satisfiesFilter r.metadata f)).map
        (toMatchData score)) :=
    (List.perm_insertionSort _ _).map _
  refine ⟨?_, ?_, ?_⟩
  · rw [search_query_ok hemb hq]
  · rw [hkd]
    simp only [List.length_map]
    omega
  · split
    case isTrue hnil =>
      have hrnil : rankedHits recs score f = [] := by
        unfold rankedHits
        rw [hnil]
        rfl
      rw [search_query_ok hemb hq]
      simp only []
      rw [hkd, hrnil]
      rfl
    case isFalse hnil =>
      rcases hr : (rankedHits recs score f).map (toMatchData score)
        with _ | ⟨a, l⟩
      · exfalso
        apply hnil
        have h0 : (rankedHits recs score f).length = 0 := by
          simpa using congrArg List.length hr
        exact List.length_eq_zero.mp (hlen.symm.trans h0)
      · refine ⟨?_, ?_, hr ▸ hperm⟩
        · rw [search_query_ok hemb hq]
          simp only []
          rw [hkd, hr]
        · rw [← hr, List.length_map, hlen]

/-- Witness for the amended C7 at a one-record store matched by the empty
filter. -/
theorem C7_amended_topk3_witness :
    (search_pinecone storeWorld "hello" "first_namespace" []).2 =
      [Event.embedCall "hello", Event.queryCall "first_namespace" 3 true [1] []] ∧
    (key_data (storeQuery recs1 score1 3 [])).length ≤ 3 ∧
    (if recs1.filter (fun r => satisfiesFilter r.metadata []) = []
     then (search_pinecone storeWorld "hello" "first_namespace" []).1 =
        PyOutcome.val (SearchReturn.str "No matches found")
     else (search_pinecone storeWorld "hello" "first_namespace" []).1 =
        PyOutcome.val (SearchReturn.matchList
          ((rankedHits recs1 score1 []).map (toMatchData score1))) ∧
      ((rankedHits recs1 score1 []).map (toMatchData score1)).length =
        (recs1.filter (fun r => satisfiesFilter r.metadata [])).length ∧
      ((rankedHits recs1 score1 []).map (toMatchData score1)).Perm
        ((recs1.filter (fun r => satisfiesFilter r.metadata [])).map
          (toMatchData score1))) :=
  C7_amended_topk3 storeWorld "hello" "first_namespace" [] [1] recs1 score1
    rfl rfl (by decide)

/-- Claim C8: inserting twice with identical text and metadata generates a fresh
identifier per call (the uuid counter advances), the two upsert calls
carry distinct identifiers, and — assuming every already-stored identifier
came from an earlier position of the collision-free id stream — neither
call overwrites an existing record: upsert always behaves as insert, with
no deduplication. -/
theorem C8_fresh_ids_no_overwrite (w : World) (ctr : Nat) (ns : String)
    (d : FirstNamespaceSchema) (v : EmbeddingVector) (used : List String)
    (hinj : Function.Injective w.uuid4)
    (hused : ∀ s, s ∈ used → ∃ k, k < ctr ∧ s = w.uuid4 k)
    (hemb : w.embedResult d.original_text = ExcOr.ok v) :
    (insert_text w ctr ns d).2.1 = ctr + 1 ∧
    (insert_text w ctr ns d).2.2 =
      [Event.embedCall d.original_text,
       Event.upsertCall ns (w.uuid4 ctr) v d.model_dump] ∧
    (insert_text w (ctr + 1) ns d).2.2 =
      [Event.embedCall d.original_text,
       Event.upsertCall ns (w.uuid4 (ctr + 1)) v d.model_dump] ∧
    w.uuid4 ctr ≠ w.uuid4 (ctr + 1) ∧
    w.uuid4 ctr ∉ used ∧
    w.uuid4 (ctr + 1) ∉ used := by
  have h1 := @insert_text_after_embed_ok w ctr ns d v hemb
  have h2 := @insert_text_after_embed_ok w (ctr + 1) ns d v hemb
  refine ⟨?_, ?_, ?_, ?_, ?_, ?_⟩
  · rw [h1]
  · rw [h1]
  · rw [h2]
  · intro hEq
    have := hinj hEq
    omega
  · intro hmem
    obtain ⟨k, hk, hs⟩ := hused _ hmem
    have := hinj hs
    omega
  · intro hmem
    obtain ⟨k, hk, hs⟩ := hused _ hmem
    have := hinj hs
    omega

/-- Witness for C8 with the collision-free stream `uuidStream`, uuid
counter 1, and one already-stored identifier from position 0. -/
theorem C8_fresh_ids_no_overwrite_witness :
    (insert_text okWorld 1 "first_namespace" d0).2.1 = 2 ∧
    (insert_text okWorld 1 "first_namespace" d0).2.2 =
      [Event.embedCall d0.original_text,
       Event.upsertCall "first_namespace" (okWorld.uuid4 1) [1] d0.model_dump] ∧
    (insert_text okWorld 2 "first_namespace" d0).2.2 =
      [Event.embedCall d0.original_text,
       Event.upsertCall "first_namespace" (okWorld.uuid4 2) [1] d0.model_dump] ∧
    okWorld.uuid4 1 ≠ okWorld.uuid4 2 ∧
    okWorld.uuid4 1 ∉ [uuidStream 0] ∧
    okWorld.uuid4 2 ∉ [uuidStream 0] :=
  C8_fresh_ids_no_overwrite okWorld 1 "first_namespace" d0 [1] [uuidStream 0]
    uuidStream_injective
    (fun s hs => ⟨0, Nat.zero_lt_one, by
      simp only [List.mem_singleton] at hs
      exact hs⟩)
    rfl

/-- Claim C9: no exposed tool ever consults the schema registry — `insert_text`
validates its data against the single fixed `FirstNamespaceSchema` shape,
so a record of that shape is accepted and stored under any namespace name,
and no execution path of `insert_text`, `embed` or `search_pinecone`
records a schema-registry lookup. -/
theorem C9_registry_never_consulted (w : World) (ctr : Nat) (t ns : String)
    (f : MetaFilter) (raw : Metadata) (d : FirstNamespaceSchema)
    (v : EmbeddingVector)
    (hval : validateFirstNamespace raw = some d)
    (hemb : w.embedResult d.original_text = ExcOr.ok v)
    (hups : w.upsertResult ns (w.uuid4 ctr) v d.model_dump = ExcOr.ok ()) :
    insert_text_tool w ctr ns raw =
      (InsertToolResult.returned true, ctr + 1,
       [Event.embedCall d.original_text,
        Event.upsertCall ns (w.uuid4 ctr) v d.model_dump]) ∧
    ((insert_text_tool w ctr ns raw).2.2).filter isSchemaLookup = [] ∧
    ((embed w t).2).filter isSchemaLookup = [] ∧
    ((search_pinecone w t ns f).2).filter isSchemaLookup = [] := by
  have key : insert_text_tool w ctr ns raw =
      (InsertToolResult.returned true, ctr + 1,
       [Event.embedCall d.original_text,
        Event.upsertCall ns (w.uuid4 ctr) v d.model_dump]) := by
    unfold insert_text_tool
    rw [hval]
    simp only []
    rw [insert_text_upsert_ok hemb hups]
  refine ⟨key, ?_, ?_, ?_⟩
  · rw [key]
    rfl
  · cases he : w.embedResult t
    · rw [embed_eq_exc he]
      rfl
    · rw [embed_eq_ok he]
      rfl
  · cases he : w.embedResult t with
    | exc m =>
      rw [search_embed_failed he]
      rfl
    | ok v2 =>
      cases hq : w.queryResult ns 3 v2 f with
      | exc m =>
        rw [search_query_exc he hq]
        rfl
      | ok res =>
        rw [search_query_ok he hq]
        rfl

/-- Witness for C9 under the namespace name "any_namespace", which has no
registry entry. -/
theorem C9_registry_never_consulted_witness :
    insert_text_tool okWorld 0 "any_namespace" rawGood =
      (InsertToolResult.returned true, 1,
       [Event.embedCall d0.original_text,
        Event.upsertCall "any_namespace" (okWorld.uuid4 0) [1] d0.model_dump]) ∧
    ((insert_text_tool okWorld 0 "any_namespace" rawGood).2.2).filter
      isSchemaLookup = [] ∧
    ((embed okWorld "hello").2).filter isSchemaLookup = [] ∧
    ((search_pinecone okWorld "hello" "any_namespace" []).2).filter
      isSchemaLookup = [] :=
  C9_registry_never_consulted okWorld 0 "hello" "any_namespace" [] rawGood d0
    [1] rfl rfl rfl
